import Mathlib

/-!
Verification of the client-side UI scripts of the AcuarelaArte static
art-portfolio website (ResponsiveMenu.js, ThemeToggle.js, imageLoader.js,
main.js) against their natural-language specification.

The JavaScript is shallowly embedded: each component's observable state
(DOM attributes, CSS classes, localStorage, dispatched custom events,
scheduled timers) is a Lean structure, and each method or handler is a
pure state-transition function translated line by line from the source.
Console logging is not part of any modelled state, since it is explicitly
excluded by every claim under scrutiny.
-/

/-! ## localStorage model

localStorage is a string-keyed string store. `setItem` and `removeItem`
are the only mutating primitives used by the repository. -/

def Store : Type := String → Option String

def setItem (s : Store) (k v : String) : Store :=
  fun x => if x = k then some v else s x

def removeItem (s : Store) (k : String) : Store :=
  fun x => if x = k then none else s x

/-! ## ThemeToggle (js/components/ThemeToggle.js)

Observable state of the theme subsystem: the data-theme attribute on
the html element, localStorage, the meta theme-color content, the toggle
button's aria-label / aria-pressed / title, and the list of themes carried
by dispatched themeChanged events (in dispatch order).

Not modelled: console output, the transient theme-transition-disabled
and theme-toggle-active CSS classes (pure visual animation helpers,
removed again by requestAnimationFrame / a 300 ms timer), and the button
click wiring itself. -/

structure ThemeState where
  dataTheme : Option String
  store : Store
  metaColor : Option String
  ariaLabel : String
  ariaPressed : String
  buttonTitle : String
  events : List String

/-- themes object: LIGHT = "light", DARK = "dark". -/
def themesLIGHT : String := "light"

def themesDARK : String := "dark"

/-- themeColors object: light ↦ #FEFEFE, dark ↦ #1A1A1A, anything else
is undefined (only ever looked up with a validated theme). -/
def themeColors (t : String) : Option String :=
  if t = "light" then some "#FEFEFE"
  else if t = "dark" then some "#1A1A1A"
  else none

/-- getCurrentTheme: reads data-theme and applies JS `theme || "light"`
(null and the empty string are falsy). -/
def getCurrentTheme (s : ThemeState) : String :=
  match s.dataTheme with
  | none => "light"
  | some t => if t = "" then "light" else t

/-- updateAriaAttributes: derives aria-label / aria-pressed / title from
the current theme. `aria-pressed` receives the string coercion of the
boolean currentTheme === DARK. -/
def updateAriaAttributes (s : ThemeState) : ThemeState :=
  let cur := getCurrentTheme s
  let label := if cur = themesLIGHT then "Cambiar a modo oscuro" else "Cambiar a modo claro"
  { s with ariaLabel := label
         , ariaPressed := if cur = themesDARK then "true" else "false"
         , buttonTitle := label }

/-- updateMetaThemeColor: sets the meta theme-color content to
themeColors[theme] (creating the tag if absent, which the Option field
absorbs). -/
def updateMetaThemeColor (s : ThemeState) (theme : String) : ThemeState :=
  { s with metaColor := themeColors theme }

/-- setTheme(theme, saveToStorage): validates the theme, then sets
data-theme, optionally persists under the localStorage key "theme",
updates the meta color and ARIA attributes, and dispatches a
themeChanged event. An invalid theme only logs a console error and
returns. -/
def setTheme (s : ThemeState) (theme : String) (saveToStorage : Bool) : ThemeState :=
  if theme ≠ themesLIGHT ∧ theme ≠ themesDARK then s
  else
    let s1 := { s with dataTheme := some theme }
    let s2 := if saveToStorage then { s1 with store := setItem s1.store "theme" theme } else s1
    let s3 := updateMetaThemeColor s2 theme
    let s4 := updateAriaAttributes s3
    { s4 with events := s4.events ++ [theme] }

/-- toggleTheme: switches to the theme opposite the current one and
persists it (animateButton, a transient CSS class on a 300 ms timer, is
not modelled). -/
def toggleTheme (s : ThemeState) : ThemeState :=
  let currentTheme := getCurrentTheme s
  let newTheme := if currentTheme = themesLIGHT then themesDARK else themesLIGHT
  setTheme s newTheme true

/-- setThemePublic: public wrapper, always persists. -/
def setThemePublic (s : ThemeState) (theme : String) : ThemeState :=
  setTheme s theme true

/-- applyThemeWithoutTransition: initial application of the theme with
transitions disabled; the transition-disabling class is transient and not
modelled, leaving setTheme with saveToStorage = false. -/
def applyThemeWithoutTransition (s : ThemeState) (theme : String) : ThemeState :=
  setTheme s theme false

/-- getInitialTheme: priority saved theme in localStorage (must be truthy
and equal to "light" or "dark") over system preference (guarded by
window.matchMedia support) over "light". -/
def getInitialTheme (store : Store) (matchMediaSupported prefersDark : Bool) : String :=
  match store "theme" with
  | some savedTheme =>
      if savedTheme ≠ "" ∧ (savedTheme = themesLIGHT ∨ savedTheme = themesDARK) then savedTheme
      else if matchMediaSupported ∧ prefersDark then themesDARK else themesLIGHT
  | none =>
      if matchMediaSupported ∧ prefersDark then themesDARK else themesLIGHT

/-- watchSystemPreference change handler: when no theme is saved
(JS falsiness: null or empty string), follow the system preference and
persist it; otherwise do nothing. -/
def systemPreferenceChange (s : ThemeState) (matchesB : Bool) : ThemeState :=
  match s.store "theme" with
  | none => setTheme s (if matchesB then themesDARK else themesLIGHT) true
  | some v => if v = "" then setTheme s (if matchesB then themesDARK else themesLIGHT) true else s

/-- resetToSystemPreference: removes the localStorage key "theme" and
applies the system theme without persisting it. -/
def resetToSystemPreference (s : ThemeState) (prefersDark : Bool) : ThemeState :=
  let s1 := { s with store := removeItem s.store "theme" }
  let systemTheme := if prefersDark then themesDARK else themesLIGHT
  setTheme s1 systemTheme false

/-- An everything-empty theme state, used to instantiate universally
quantified theorems at a concrete input. -/
def initialThemeState : ThemeState :=
  { dataTheme := none
  , store := fun _ => none
  , metaColor := none
  , ariaLabel := ""
  , ariaPressed := ""
  , buttonTitle := ""
  , events := [] }

/-- A theme state whose document currently shows the light theme. -/
def lightThemeState : ThemeState :=
  { initialThemeState with dataTheme := some "light" }

/-! ## ResponsiveMenu (js/components/ResponsiveMenu.js)

Observable state: the isOpen flag, the active class on navMenu, the
menu-open class on body, aria-expanded and aria-label on the toggle
button, and the body overflow style. Not modelled: console output and
the delayed focus of the first menu item. -/

structure MenuState where
  isOpen : Bool
  navActive : Bool
  bodyMenuOpen : Bool
  ariaExpanded : String
  menuAriaLabel : String
  bodyOverflow : String

/-- Breakpoint where the menu becomes horizontal. -/
def desktopBreakpoint : Nat := 1024

/-- openMenu: sets isOpen, adds the active and menu-open classes, updates
ARIA, and locks body scroll. -/
def openMenu (s : MenuState) : MenuState :=
  { s with isOpen := true
         , navActive := true
         , bodyMenuOpen := true
         , ariaExpanded := "true"
         , menuAriaLabel := "Cerrar menú de navegación"
         , bodyOverflow := "hidden" }

/-- closeMenu: clears isOpen, removes the classes, updates ARIA, and
restores body scroll. -/
def closeMenu (s : MenuState) : MenuState :=
  { s with isOpen := false
         , navActive := false
         , bodyMenuOpen := false
         , ariaExpanded := "false"
         , menuAriaLabel := "Abrir menú de navegación"
         , bodyOverflow := "" }

/-- toggleMenu: closes when open, opens when closed. -/
def toggleMenu (s : MenuState) : MenuState :=
  if s.isOpen then closeMenu s else openMenu s

/-- The DOM synchronization invariant claimed for the menu: isOpen agrees
with the active class, the menu-open class, aria-expanded = "true", and
overflow = "hidden". -/
def menuDomSync (s : MenuState) : Prop :=
  (s.isOpen = true ↔ s.navActive = true) ∧
  (s.isOpen = true ↔ s.bodyMenuOpen = true) ∧
  (s.isOpen = true ↔ s.ariaExpanded = "true") ∧
  (s.isOpen = true ↔ s.bodyOverflow = "hidden")

instance (s : MenuState) : Decidable (menuDomSync s) := by
  unfold menuDomSync; infer_instance

/-! ### Debounced resize handling (setupResizeListener)

The handler keeps a single resizeTimer slot. Every resize event clears
any pending timer and schedules a new 150 ms timeout; the timeout
callback closes the menu when the window has become desktop-sized while
the menu is open. Time is modelled in milliseconds; the timer slot holds
the absolute firing time of the pending timeout, none when no timeout is
pending. -/

structure ResizeState where
  menu : MenuState
  resizeTimer : Option Nat

/-- The resize event handler: clearTimeout on the previous timer (the
slot is overwritten, so the old timeout can never fire) and setTimeout
of the debounce callback 150 ms from now. -/
def onWindowResize (s : ResizeState) (now : Nat) : ResizeState :=
  { s with resizeTimer := some (now + 150) }

/-- The debounce callback: runs when the pending timeout fires (so the
slot empties), and closes the menu exactly when innerWidth has reached
the desktop breakpoint while the menu is open. -/
def resizeTimerCallback (s : ResizeState) (innerWidth : Nat) : ResizeState :=
  let s1 := { s with resizeTimer := none }
  if desktopBreakpoint ≤ innerWidth ∧ s1.menu.isOpen = true then
    { s1 with menu := closeMenu s1.menu }
  else s1

/-- A closed menu with no pending resize timer, for concrete
instantiations. -/
def initialResizeState : ResizeState :=
  { menu :=
      { isOpen := false, navActive := false, bodyMenuOpen := false
      , ariaExpanded := "false", menuAriaLabel := "Abrir menú de navegación"
      , bodyOverflow := "" }
  , resizeTimer := none }

/-! ## Image loader (js/utils/imageLoader.js)

Per-image observable state: the loader CSS classes, the src / srcset
attributes, the alt text, the data-src / data-srcset / data-alt /
data-fallback attributes, this image's entry in the module-level
retryMap, the delay of the retry timeout scheduled by the most recent
error-handling step (none when that step scheduled none or the timeout
already fired), and the custom events dispatched on the image. -/

namespace CONFIG

/-- CONFIG.maxRetries: reintentos en caso de error. -/
def maxRetries : Nat := 3

/-- CONFIG.retryDelay: delay entre reintentos (ms). -/
def retryDelay : Nat := 1000

/-- CONFIG.lazyClass. -/
def lazyClass : String := "lazy-load"

/-- CONFIG.loadingClass. -/
def loadingClass : String := "image-loading"

/-- CONFIG.loadedClass. -/
def loadedClass : String := "image-loaded"

/-- CONFIG.errorClass. -/
def errorClass : String := "image-error"

/-- CONFIG.placeholderClass. -/
def placeholderClass : String := "lazy-placeholder"

end CONFIG

structure ImgState where
  placeholderC : Bool
  loadingC : Bool
  loadedC : Bool
  errorC : Bool
  src : Option String
  srcset : Option String
  alt : String
  dataSrc : Option String
  dataSrcset : Option String
  dataAlt : Option String
  dataFallback : Option String
  retryEntry : Option Nat
  scheduledRetryDelay : Option Nat
  events : List String
deriving DecidableEq

/-- loadImage, up to starting the preload of the temporary Image: bails
out (console warning only) when data-src is absent, otherwise swaps the
placeholder class for the loading class. Entering the load consumes any
pending retry timeout (it is this callback that a retry timeout runs). -/
def loadImageStep (s : ImgState) : ImgState :=
  match s.dataSrc with
  | none => { s with scheduledRetryDelay := none }
  | some _ =>
      { s with placeholderC := false
             , loadingC := true
             , scheduledRetryDelay := none }

/-- handleImageLoaded: applies src / srcset / original alt, swaps the
loading class for the loaded class, deletes the data attributes, clears
the retryMap entry, and dispatches imageLoaded. The src and srcset
arguments were captured from the dataset when loadImage ran. -/
def handleImageLoaded (s : ImgState) : ImgState :=
  let s1 := { s with src := s.dataSrc }
  let s2 := match s1.dataSrcset with
    | some st => { s1 with srcset := some st }
    | none => s1
  let s3 := match s2.dataAlt with
    | some a => { s2 with alt := a }
    | none => s2
  { s3 with loadingC := false
          , loadedC := true
          , dataSrc := none
          , dataSrcset := none
          , retryEntry := none
          , events := s3.events ++ ["imageLoaded"] }

/-- handleImageError: below CONFIG.maxRetries, increments the retryMap
entry and schedules another loadImage after retryDelay * (retries + 1)
milliseconds; at the cap, swaps the loading class for the error class,
applies the data-fallback src when present (otherwise an error alt
text), dispatches imageError, and deletes the retryMap entry. -/
def handleImageError (s : ImgState) : ImgState :=
  let retries := s.retryEntry.getD 0
  if retries < CONFIG.maxRetries then
    { s with retryEntry := some (retries + 1)
           , scheduledRetryDelay := some (CONFIG.retryDelay * (retries + 1)) }
  else
    let s1 := { s with loadingC := false, errorC := true, scheduledRetryDelay := none }
    let s2 := match s1.dataFallback with
      | some fallback => { s1 with src := some fallback }
      | none => { s1 with alt := "Error al cargar imagen" }
    { s2 with events := s2.events ++ ["imageError"]
            , retryEntry := none }

/-- One failed load round: the scheduled (or initial) loadImage runs and
its temporary image fires onerror. -/
def failedAttempt (s : ImgState) : ImgState :=
  handleImageError (loadImageStep s)

/-- A lazy image as observeImages leaves it: placeholder class added,
default alt installed when the markup had none, untouched retryMap. -/
def freshLazyImg (src0 : String) (fallback : Option String) : ImgState :=
  { placeholderC := true
  , loadingC := false
  , loadedC := false
  , errorC := false
  , src := none
  , srcset := none
  , alt := "Imagen cargando..."
  , dataSrc := some src0
  , dataSrcset := none
  , dataAlt := none
  , dataFallback := fallback
  , retryEntry := none
  , scheduledRetryDelay := none
  , events := [] }

/-! ## getLoadingStats and JS number semantics

getLoadingStats divides by document.querySelectorAll("img").length with
no zero guard, so its percentage lives in JS floating-point arithmetic.
Only the special-value structure matters here (0/0 = NaN, positive/0 =
Infinity, Math.round propagates both), so JS numbers are modelled as
rationals extended with NaN and the two infinities; negative zero is not
distinguished. -/

inductive JSNum : Type
  | nan
  | posInf
  | negInf
  | num (q : ℚ)
deriving DecidableEq

/-- JS division on the modelled values. -/
def jsDiv : JSNum → JSNum → JSNum
  | .nan, _ => .nan
  | _, .nan => .nan
  | .num a, .num b =>
      if b = 0 then (if a = 0 then .nan else if 0 < a then .posInf else .negInf)
      else .num (a / b)
  | .posInf, .num b => if 0 ≤ b then .posInf else .negInf
  | .negInf, .num b => if 0 ≤ b then .negInf else .posInf
  | .num _, .posInf => .num 0
  | .num _, .negInf => .num 0
  | .posInf, .posInf => .nan
  | .posInf, .negInf => .nan
  | .negInf, .posInf => .nan
  | .negInf, .negInf => .nan

/-- JS multiplication on the modelled values. -/
def jsMul : JSNum → JSNum → JSNum
  | .nan, _ => .nan
  | _, .nan => .nan
  | .num a, .num b => .num (a * b)
  | .posInf, .num b => if b = 0 then .nan else if 0 < b then .posInf else .negInf
  | .num a, .posInf => if a = 0 then .nan else if 0 < a then .posInf else .negInf
  | .negInf, .num b => if b = 0 then .nan else if 0 < b then .negInf else .posInf
  | .num a, .negInf => if a = 0 then .nan else if 0 < a then .negInf else .posInf
  | .posInf, .posInf => .posInf
  | .posInf, .negInf => .negInf
  | .negInf, .posInf => .negInf
  | .negInf, .negInf => .posInf

/-- Math.round: round half up; NaN and the infinities pass through. -/
def jsRound : JSNum → JSNum
  | .nan => .nan
  | .posInf => .posInf
  | .negInf => .negInf
  | .num q => .num ((⌊q + 1 / 2⌋ : ℤ) : ℚ)

/-- A document element as the loader sees it: tag name, class list and
whether a data-src attribute is present. -/
structure DomElem where
  tag : String
  classes : List String
  hasDataSrc : Bool
deriving DecidableEq

/-- querySelectorAll result size for the selectors getLoadingStats
uses. -/
def countMatching (doc : List DomElem) (p : DomElem → Bool) : Nat :=
  (doc.filter p).length

structure LoadingStats where
  total : Nat
  lazy : Nat
  loaded : Nat
  loading : Nat
  errors : Nat
  pending : Int
  percentage : JSNum
deriving DecidableEq

/-- getLoadingStats: counts img elements, img[data-src] elements, and
elements (of any tag) carrying the loaded / loading / error classes;
pending is lazy - loaded - errors, and percentage is
Math.round((loaded / total) * 100) with no guard on total = 0. -/
def getLoadingStats (doc : List DomElem) : LoadingStats :=
  let allImages := countMatching doc (fun e => e.tag == "img")
  let lazyImages := countMatching doc (fun e => e.tag == "img" && e.hasDataSrc)
  let loadedImages := countMatching doc (fun e => e.classes.contains CONFIG.loadedClass)
  let errorImages := countMatching doc (fun e => e.classes.contains CONFIG.errorClass)
  let loadingImages := countMatching doc (fun e => e.classes.contains CONFIG.loadingClass)
  { total := allImages
  , lazy := lazyImages
  , loaded := loadedImages
  , loading := loadingImages
  , errors := errorImages
  , pending := (lazyImages : Int) - (loadedImages : Int) - (errorImages : Int)
  , percentage := jsRound (jsMul (jsDiv (.num (loadedImages : ℚ)) (.num (allImages : ℚ))) (.num 100)) }

/-- A document whose only element is a div carrying the loaded class:
no img elements, yet the class-based counts are nonzero. -/
def divLoadedDoc : List DomElem :=
  [{ tag := "div", classes := ["image-loaded"], hasDataSrc := false }]

/-- A document with a single plain div and no images. -/
def plainDivDoc : List DomElem :=
  [{ tag := "div", classes := ["hero"], hasDataSrc := false }]

/-! ## Page orchestrator (js/main.js)

AcuarelaArteApp conditionally instantiates components depending on which
DOM elements exist and on the current page name. The relevant DOM facts
are which of the looked-up element ids resolve; a module slot is
modelled as the boolean "slot holds an instance" (null ↦ false). -/

structure Features where
  lazyLoading : Bool
  darkMode : Bool
  analytics : Bool

/-- APP_CONFIG.features. -/
def appFeatures : Features :=
  { lazyLoading := true, darkMode := true, analytics := false }

structure Dom where
  themeToggle : Bool
  menuToggle : Bool
  navMenu : Bool
  galleryGrid : Bool
  lightbox : Bool
  contactForm : Bool
deriving DecidableEq

structure Modules where
  themeToggle : Bool
  responsiveMenu : Bool
  gallery : Bool
  lightbox : Bool
  formValidator : Bool
deriving DecidableEq

/-- The constructor initialises every module slot to null. -/
def initialModules : Modules :=
  { themeToggle := false, responsiveMenu := false, gallery := false
  , lightbox := false, formValidator := false }

/-- loadCoreModules: ThemeToggle when the themeToggle element exists and
the darkMode feature is enabled; ResponsiveMenu when the menuToggle
element exists. (The image loader has no module slot.) -/
def loadCoreModules (dom : Dom) (m : Modules) : Modules :=
  let m1 := if dom.themeToggle && appFeatures.darkMode then { m with themeToggle := true } else m
  let m2 := if dom.menuToggle then { m1 with responsiveMenu := true } else m1
  m2

/-- loadPageModules: dispatches on the current page name. Only the
portafolio branch (Gallery, Lightbox) and the contacto branch
(FormValidator) touch module slots; the index, tecnicas, progreso and
materiales branches and the default run only slot-free helpers, so they
collapse into the wildcard. -/
def loadPageModules (page : String) (dom : Dom) (m : Modules) : Modules :=
  match page with
  | "portafolio" =>
      let m1 := if dom.galleryGrid then { m with gallery := true } else m
      if dom.lightbox then { m1 with lightbox := true } else m1
  | "contacto" =>
      if dom.contactForm then { m with formValidator := true } else m
  | _ => m

/-- init, restricted to the module-slot effects: loadCoreModules then
loadPageModules over the initially null slots. -/
def appInit (page : String) (dom : Dom) : Modules :=
  loadPageModules page dom (loadCoreModules dom initialModules)

/-- Auto-initialization block of ResponsiveMenu.js: window.responsiveMenu
is created exactly when both the menuToggle and navMenu elements exist. -/
def autoInitResponsiveMenu (dom : Dom) : Bool :=
  dom.menuToggle && dom.navMenu

/-- handleInitError: builds a div with class init-error holding the
apology message and a reload button, and prepends it to document.body.
Body children are modelled by their class names, newest first. -/
def handleInitError (bodyChildren : List String) : List String :=
  "init-error" :: bodyChildren

/-- A DOM in which only the galleryGrid element exists. -/
def galleryOnlyDom : Dom :=
  { themeToggle := false, menuToggle := false, navMenu := false
  , galleryGrid := true, lightbox := false, contactForm := false }

/-! ## Helper lemmas -/

/-- setTheme never touches any localStorage key other than "theme". -/
theorem setTheme_store_other (s : ThemeState) (t : String) (b : Bool) (k : String)
    (hk : k ≠ "theme") : (setTheme s t b).store k = s.store k := by
  unfold setTheme updateMetaThemeColor updateAriaAttributes
  split
  · rfl
  · cases b <;> simp [setItem, hk]

/-- Folding the resize handler over a nonempty burst of resize events
leaves exactly one pending timeout: the one scheduled 150 ms after the
last event. -/
theorem foldl_onWindowResize_last (ts : List Nat) :
    ∀ (s : ResizeState) (l : Nat), ts.getLast? = some l →
      (List.foldl onWindowResize s ts).resizeTimer = some (l + 150) := by
  induction ts with
  | nil => intro s l h; simp at h
  | cons a rest ih =>
    intro s l h
    cases rest with
    | nil =>
      simp at h
      subst h
      simp [List.foldl, onWindowResize]
    | cons b r =>
      rw [List.getLast?_cons_cons] at h
      simpa [List.foldl] using ih (onWindowResize s a) l h

/-- A per-element refutation of a predicate empties the corresponding
querySelectorAll count. -/
theorem countMatching_eq_zero (doc : List DomElem) (p : DomElem → Bool)
    (hp : ∀ e ∈ doc, p e = false) : countMatching doc p = 0 := by
  unfold countMatching
  rw [List.length_eq_zero, List.filter_eq_nil_iff]
  intro e he
  simp [hp e he]

/-! ## Claim theorems -/

/-- C2: Every write to persistent storage across the theme operations
(the only code that writes to localStorage) uses only the key "theme",
and the only key ever removed is "theme": every other key survives every
operation unchanged. -/
theorem theme_storage_single_key :
    ∀ (s : ThemeState) (t : String) (b pd : Bool) (k : String), k ≠ "theme" →
      (setTheme s t b).store k = s.store k ∧
      (toggleTheme s).store k = s.store k ∧
      (setThemePublic s t).store k = s.store k ∧
      (applyThemeWithoutTransition s t).store k = s.store k ∧
      (systemPreferenceChange s pd).store k = s.store k ∧
      (resetToSystemPreference s pd).store k = s.store k := by
  intro s t b pd k hk
  refine ⟨setTheme_store_other s t b k hk, setTheme_store_other s _ true k hk,
          setTheme_store_other s t true k hk, setTheme_store_other s t false k hk, ?_, ?_⟩
  · unfold systemPreferenceChange
    split
    · exact setTheme_store_other s _ true k hk
    · split
      · exact setTheme_store_other s _ true k hk
      · rfl
  · unfold resetToSystemPreference
    rw [setTheme_store_other _ _ false k hk]
    simp [removeItem, hk]

/-- Witness for C2: the key "other" is untouched by the theme operations
on the empty state. -/
theorem theme_storage_single_key_witness :
    "other" ≠ "theme" ∧
      ((setTheme initialThemeState "dark" true).store "other" = initialThemeState.store "other" ∧
       (toggleTheme initialThemeState).store "other" = initialThemeState.store "other" ∧
       (setThemePublic initialThemeState "dark").store "other" = initialThemeState.store "other" ∧
       (applyThemeWithoutTransition initialThemeState "dark").store "other" = initialThemeState.store "other" ∧
       (systemPreferenceChange initialThemeState true).store "other" = initialThemeState.store "other" ∧
       (resetToSystemPreference initialThemeState true).store "other" = initialThemeState.store "other") :=
  ⟨by decide, theme_storage_single_key initialThemeState "dark" true true "other" (by decide)⟩

/-- C3: From either current theme, a user-initiated toggleTheme switches
the document data-theme attribute to the opposite theme and persists that
same value under the localStorage key "theme". -/
theorem toggleTheme_switches_and_persists :
    ∀ s : ThemeState,
      (getCurrentTheme s = "light" →
        (toggleTheme s).dataTheme = some "dark" ∧ (toggleTheme s).store "theme" = some "dark") ∧
      (getCurrentTheme s = "dark" →
        (toggleTheme s).dataTheme = some "light" ∧ (toggleTheme s).store "theme" = some "light") := by
  intro s
  constructor <;> intro h <;>
    simp [toggleTheme, h, themesLIGHT, themesDARK, setTheme,
          updateMetaThemeColor, updateAriaAttributes, setItem]

/-- Witness for C3: toggling from the light state yields and persists
dark. -/
theorem toggleTheme_switches_and_persists_witness :
    getCurrentTheme lightThemeState = "light" ∧
      ((toggleTheme lightThemeState).dataTheme = some "dark" ∧
       (toggleTheme lightThemeState).store "theme" = some "dark") :=
  ⟨by decide, (toggleTheme_switches_and_persists lightThemeState).1 (by decide)⟩

/-- C4: After any of openMenu, closeMenu or toggleMenu, the single
boolean isOpen is synchronized with the DOM: it agrees with the active
class on navMenu, the menu-open class on body, aria-expanded = "true" on
the toggle button, and body overflow = "hidden". -/
theorem menu_operations_keep_dom_sync :
    ∀ s : MenuState,
      menuDomSync (openMenu s) ∧ menuDomSync (closeMenu s) ∧ menuDomSync (toggleMenu s) := by
  intro s
  refine ⟨by simp [menuDomSync, openMenu], by simp [menuDomSync, closeMenu], ?_⟩
  unfold toggleMenu
  cases s.isOpen <;> simp [menuDomSync, openMenu, closeMenu]

/-- C7: The window-resize handler is debounced: every resize event
replaces the previously scheduled timer with one 150 ms out (so over any
burst of resizes only the last timer survives), the handler itself never
touches the menu, and when the pending timer fires the menu is closed
exactly when the window width has reached the 1024 px desktop breakpoint
while the menu is open. -/
theorem resize_debounce_spec :
    (∀ (s : ResizeState) (now : Nat),
       (onWindowResize s now).resizeTimer = some (now + 150) ∧
       (onWindowResize s now).menu = s.menu) ∧
    (∀ (s : ResizeState) (ts : List Nat) (l : Nat), ts.getLast? = some l →
       (List.foldl onWindowResize s ts).resizeTimer = some (l + 150)) ∧
    (∀ (s : ResizeState) (w : Nat), desktopBreakpoint ≤ w → s.menu.isOpen = true →
       (resizeTimerCallback s w).menu = closeMenu s.menu ∧
       (resizeTimerCallback s w).resizeTimer = none) ∧
    (∀ (s : ResizeState) (w : Nat), ¬(desktopBreakpoint ≤ w ∧ s.menu.isOpen = true) →
       (resizeTimerCallback s w).menu = s.menu ∧
       (resizeTimerCallback s w).resizeTimer = none) := by
  refine ⟨fun s now => ⟨rfl, rfl⟩, fun s ts l h => foldl_onWindowResize_last ts s l h, ?_, ?_⟩
  · intro s w hw ho
    constructor <;> simp [resizeTimerCallback, hw, ho]
  · intro s w hno
    constructor <;> simp [resizeTimerCallback, hno]

/-- Witness for C7: a burst of resizes at 100 ms and 200 ms leaves a
single timer pending at 350 ms, and a fire at width 1280 with the menu
open closes it. -/
theorem resize_debounce_spec_witness :
    ([100, 200].getLast? = some 200 ∧
       (List.foldl onWindowResize initialResizeState [100, 200]).resizeTimer = some (200 + 150)) ∧
    (desktopBreakpoint ≤ 1280 ∧ (openMenu initialResizeState.menu).isOpen = true ∧
       (resizeTimerCallback { initialResizeState with menu := openMenu initialResizeState.menu } 1280).menu =
         closeMenu (openMenu initialResizeState.menu)) :=
  ⟨⟨by decide, resize_debounce_spec.2.1 initialResizeState [100, 200] 200 (by decide)⟩,
   by decide,
   by decide,
   (resize_debounce_spec.2.2.1
      { initialResizeState with menu := openMenu initialResizeState.menu } 1280
      (by decide) (by decide)).1⟩

/-- C8: getInitialTheme chooses the theme with priority saved preference
over system preference over light: a saved localStorage value equal to
"light" or "dark" is returned as is, any other saved value is ignored,
and otherwise the result is "dark" exactly when matchMedia reports a
dark preference, defaulting to "light". -/
theorem initial_theme_priority :
    ∀ (store : Store) (mm pd : Bool),
      getInitialTheme store mm pd =
        match store "theme" with
        | some v =>
            if v = "light" ∨ v = "dark" then v
            else if mm && pd then "dark" else "light"
        | none => if mm && pd then "dark" else "light" := by
  intro store mm pd
  unfold getInitialTheme
  cases h : store "theme" with
  | none => simp [themesLIGHT, themesDARK]
  | some v =>
    by_cases hv : v = "light" ∨ v = "dark"
    · have hne : v ≠ "" := by rcases hv with hv | hv <;> subst hv <;> decide
      simp [themesLIGHT, themesDARK, hv, hne]
    · simp [themesLIGHT, themesDARK, hv]

/-- C9: setTheme rejects any theme other than "light" and "dark"
atomically: the whole observable state (data-theme, localStorage, meta
theme-color, ARIA attributes, dispatched themeChanged events) is
returned unchanged. -/
theorem setTheme_invalid_rejected :
    ∀ (s : ThemeState) (t : String) (b : Bool),
      t ≠ themesLIGHT → t ≠ themesDARK → setTheme s t b = s := by
  intro s t b h1 h2
  simp [setTheme, h1, h2]

/-- Witness for C9: the invalid theme "blue" leaves the empty state
untouched. -/
theorem setTheme_invalid_rejected_witness :
    ("blue" ≠ themesLIGHT ∧ "blue" ≠ themesDARK) ∧
      setTheme initialThemeState "blue" true = initialThemeState :=
  ⟨by decide, setTheme_invalid_rejected initialThemeState "blue" true (by decide) (by decide)⟩

/-- C1: On a failed image load, handleImageError retries at most
CONFIG.maxRetries = 3 times with linearly growing backoff: while the
retry counter is below the cap it is incremented and a retry is
scheduled after retryDelay * (attempt number) ms, so a persistently
failing image sees retries scheduled at 1000, 2000 and 3000 ms and
nothing afterwards; once the counter has reached 3, no retry is
scheduled, the image gets the error class (losing the loading class),
the data-fallback src is applied when present, an imageError event is
dispatched, and the retryMap entry is removed. -/
theorem image_retry_policy :
    (∀ s : ImgState, s.retryEntry.getD 0 < CONFIG.maxRetries →
       (handleImageError s).retryEntry = some (s.retryEntry.getD 0 + 1) ∧
       (handleImageError s).scheduledRetryDelay =
         some (CONFIG.retryDelay * (s.retryEntry.getD 0 + 1))) ∧
    (∀ s : ImgState, CONFIG.maxRetries ≤ s.retryEntry.getD 0 →
       (handleImageError s).scheduledRetryDelay = none ∧
       (handleImageError s).retryEntry = none ∧
       (handleImageError s).errorC = true ∧
       (handleImageError s).loadingC = false ∧
       (handleImageError s).events = s.events ++ ["imageError"] ∧
       (handleImageError s).src =
         (match s.dataFallback with | some fb => some fb | none => s.src)) ∧
    (∀ (src0 : String) (fb : Option String),
       (failedAttempt (freshLazyImg src0 fb)).scheduledRetryDelay = some 1000 ∧
       (failedAttempt (failedAttempt (freshLazyImg src0 fb))).scheduledRetryDelay = some 2000 ∧
       (failedAttempt (failedAttempt (failedAttempt (freshLazyImg src0 fb)))).scheduledRetryDelay
         = some 3000 ∧
       (failedAttempt (failedAttempt (failedAttempt (freshLazyImg src0 fb)))).retryEntry
         = some CONFIG.maxRetries ∧
       (failedAttempt (failedAttempt (failedAttempt (failedAttempt
         (freshLazyImg src0 fb))))).scheduledRetryDelay = none ∧
       (failedAttempt (failedAttempt (failedAttempt (failedAttempt
         (freshLazyImg src0 fb))))).errorC = true ∧
       (failedAttempt (failedAttempt (failedAttempt (failedAttempt
         (freshLazyImg src0 fb))))).loadingC = false ∧
       (failedAttempt (failedAttempt (failedAttempt (failedAttempt
         (freshLazyImg src0 fb))))).src = fb ∧
       (failedAttempt (failedAttempt (failedAttempt (failedAttempt
         (freshLazyImg src0 fb))))).events = ["imageError"] ∧
       (failedAttempt (failedAttempt (failedAttempt (failedAttempt
         (freshLazyImg src0 fb))))).retryEntry = none) := by
  refine ⟨?_, ?_, ?_⟩
  · intro s h
    simp [handleImageError, h]
  · intro s h
    have h2 : ¬(s.retryEntry.getD 0 < CONFIG.maxRetries) := by omega
    cases hfb : s.dataFallback <;> simp [handleImageError, h2, hfb]
  · intro src0 fb
    cases fb <;>
      simp [failedAttempt, loadImageStep, handleImageError, freshLazyImg,
            CONFIG.maxRetries, CONFIG.retryDelay]

/-- Witness for C1: a fresh failing image gets its first retry scheduled
after 1000 ms, and a fourth consecutive failure is terminal. -/
theorem image_retry_policy_witness :
    ((freshLazyImg "obra.jpg" none).retryEntry.getD 0 < CONFIG.maxRetries ∧
       (handleImageError (freshLazyImg "obra.jpg" none)).scheduledRetryDelay =
         some (CONFIG.retryDelay * ((freshLazyImg "obra.jpg" none).retryEntry.getD 0 + 1))) ∧
    (CONFIG.maxRetries ≤ ({ freshLazyImg "obra.jpg" none with
        retryEntry := some 3 } : ImgState).retryEntry.getD 0 ∧
       (handleImageError { freshLazyImg "obra.jpg" none with
         retryEntry := some 3 }).scheduledRetryDelay = none) :=
  ⟨⟨by decide, (image_retry_policy.1 (freshLazyImg "obra.jpg" none) (by decide)).2⟩,
   ⟨by decide, (image_retry_policy.2.1 { freshLazyImg "obra.jpg" none with
      retryEntry := some 3 } (by decide)).1⟩⟩

/-- C5, counterexample: on the index page, a present galleryGrid element
does not get a Gallery instance, refuting the biconditional
"instantiates each component if and only if its required DOM element is
present" (instantiation also needs the matching page). -/
theorem module_wiring_iff_cex :
    galleryOnlyDom.galleryGrid = true ∧ (appInit "index" galleryOnlyDom).gallery = false := by
  decide

/-- C5 as amended: a module slot is non-null exactly when its element is
present and (for the page modules) the current page matches: ThemeToggle
iff the themeToggle element exists and darkMode is enabled, ResponsiveMenu
iff menuToggle exists, Gallery iff the page is portafolio and galleryGrid
exists, Lightbox iff the page is portafolio and lightbox exists, and
FormValidator iff the page is contacto and contactForm exists; in
particular an absent element leaves the slot null. -/
theorem module_wiring_spec :
    ∀ (page : String) (dom : Dom),
      (appInit page dom).themeToggle = (dom.themeToggle && appFeatures.darkMode) ∧
      (appInit page dom).responsiveMenu = dom.menuToggle ∧
      (appInit page dom).gallery = (page == "portafolio" && dom.galleryGrid) ∧
      (appInit page dom).lightbox = (page == "portafolio" && dom.lightbox) ∧
      (appInit page dom).formValidator = (page == "contacto" && dom.contactForm) := by
  intro page dom
  obtain ⟨dt, mt, nm, gg, lb, cf⟩ := dom
  simp only [appInit, loadCoreModules, loadPageModules, initialModules, appFeatures]
  cases dt <;> cases mt <;> cases gg <;> cases lb <;> cases cf <;>
    (split <;> simp_all)

/-- C6, counterexample: handleInitError prepends an init-error banner to
document.body, an observable DOM mutation, refuting the claim that no
error path performs any observable action beyond console output and
bounded retry scheduling. -/
theorem init_error_banner_cex :
    handleInitError [] = ["init-error"] ∧ handleInitError [] ≠ [] := by
  decide

/-- C6 as amended: beyond console output, the error paths act exactly as
follows and nothing more: below the retry cap, handleImageError only
schedules a bounded retry (classes, src, alt and events untouched); at
the cap it marks the image (error class, fallback src or error alt,
imageError event) and stops; and handleInitError prepends the init-error
banner to the body. -/
theorem error_handling_observable_actions :
    ∀ (body : List String) (s : ImgState),
      handleInitError body = "init-error" :: body ∧
      (s.retryEntry.getD 0 < CONFIG.maxRetries →
        (handleImageError s).events = s.events ∧
        (handleImageError s).errorC = s.errorC ∧
        (handleImageError s).loadingC = s.loadingC ∧
        (handleImageError s).loadedC = s.loadedC ∧
        (handleImageError s).src = s.src ∧
        (handleImageError s).alt = s.alt ∧
        (handleImageError s).scheduledRetryDelay =
          some (CONFIG.retryDelay * (s.retryEntry.getD 0 + 1))) ∧
      (CONFIG.maxRetries ≤ s.retryEntry.getD 0 →
        (handleImageError s).scheduledRetryDelay = none ∧
        (handleImageError s).errorC = true ∧
        (handleImageError s).events = s.events ++ ["imageError"]) := by
  intro body s
  refine ⟨rfl, ?_, ?_⟩
  · intro h
    simp [handleImageError, h]
  · intro h
    have h2 : ¬(s.retryEntry.getD 0 < CONFIG.maxRetries) := by omega
    cases hfb : s.dataFallback <;> simp [handleImageError, h2, hfb]

/-- Witness for the amended C6 at a concrete body and image state. -/
theorem error_handling_observable_actions_witness :
    handleInitError ["hero"] = "init-error" :: ["hero"] ∧
      ((freshLazyImg "obra.jpg" none).retryEntry.getD 0 < CONFIG.maxRetries ∧
        (handleImageError (freshLazyImg "obra.jpg" none)).events =
          (freshLazyImg "obra.jpg" none).events) :=
  ⟨(error_handling_observable_actions ["hero"] (freshLazyImg "obra.jpg" none)).1,
   by decide,
   ((error_handling_observable_actions ["hero"] (freshLazyImg "obra.jpg" none)).2.1 (by decide)).1⟩

/-- C10, counterexample: with no img element but a stray div carrying the
loaded class (the loaded / error / loading counts are class selectors
over all elements, not just images), getLoadingStats returns loaded = 1
and percentage = Math.round((1 / 0) * 100) = Infinity, not NaN; so "no
img elements" alone forces neither the NaN percentage nor zero counts. -/
theorem loading_stats_no_images_cex :
    (divLoadedDoc.all fun e => e.tag != "img") = true ∧
      (getLoadingStats divLoadedDoc).loaded = 1 ∧
      (getLoadingStats divLoadedDoc).percentage = JSNum.posInf := by
  decide

/-- C10 as amended: when the document contains no img elements and no
element carries the loader status classes image-loaded / image-error /
image-loading, getLoadingStats returns percentage = NaN — the unguarded
Math.round((loaded / total) * 100) evaluates 0 / 0 — and every other
count is 0. -/
theorem loading_stats_no_images :
    ∀ doc : List DomElem,
      (doc.all fun e => e.tag != "img" &&
         !(e.classes.contains CONFIG.loadedClass) &&
         !(e.classes.contains CONFIG.errorClass) &&
         !(e.classes.contains CONFIG.loadingClass)) = true →
      (getLoadingStats doc).percentage = JSNum.nan ∧
      (getLoadingStats doc).total = 0 ∧
      (getLoadingStats doc).lazy = 0 ∧
      (getLoadingStats doc).loaded = 0 ∧
      (getLoadingStats doc).loading = 0 ∧
      (getLoadingStats doc).errors = 0 ∧
      (getLoadingStats doc).pending = 0 := by
  intro doc h
  rw [List.all_eq_true] at h
  have himg : ∀ e ∈ doc, (e.tag == "img") = false := by
    intro e he
    have := h e he
    simp only [Bool.and_eq_true, bne_iff_ne, ne_eq, Bool.not_eq_true] at this
    simp [this.1.1.1]
  have hlazy : ∀ e ∈ doc, (e.tag == "img" && e.hasDataSrc) = false := by
    intro e he
    simp [himg e he]
  have hloaded : ∀ e ∈ doc, e.classes.contains CONFIG.loadedClass = false := by
    intro e he
    have := h e he
    simp only [Bool.and_eq_true, Bool.not_eq_true] at this
    simpa using this.1.1.2
  have herr : ∀ e ∈ doc, e.classes.contains CONFIG.errorClass = false := by
    intro e he
    have := h e he
    simp only [Bool.and_eq_true, Bool.not_eq_true] at this
    simpa using this.1.2
  have hload : ∀ e ∈ doc, e.classes.contains CONFIG.loadingClass = false := by
    intro e he
    have := h e he
    simp only [Bool.and_eq_true, Bool.not_eq_true] at this
    simpa using this.2
  simp only [getLoadingStats,
    countMatching_eq_zero doc _ himg,
    countMatching_eq_zero doc _ hlazy,
    countMatching_eq_zero doc _ hloaded,
    countMatching_eq_zero doc _ herr,
    countMatching_eq_zero doc _ hload]
  norm_num [jsDiv, jsMul, jsRound]

/-- Witness for the amended C10: a document holding a single plain div
and no images. -/
theorem loading_stats_no_images_witness :
    (plainDivDoc.all fun e => e.tag != "img" &&
       !(e.classes.contains CONFIG.loadedClass) &&
       !(e.classes.contains CONFIG.errorClass) &&
       !(e.classes.contains CONFIG.loadingClass)) = true ∧
      (getLoadingStats plainDivDoc).percentage = JSNum.nan ∧
      (getLoadingStats plainDivDoc).total = 0 :=
  ⟨by decide,
   (loading_stats_no_images plainDivDoc (by decide)).1,
   (loading_stats_no_images plainDivDoc (by decide)).2.1⟩
